import Mathlib

/-!
The typed configuration accessor of `src/config/config_impl.hpp`.

The header declares class `config::ConfigImpl`: two data members, two inline
accessors for the enforced-read flag, two inline string overloads of
`WriteImpl`, and a set of pure virtual members that a storage backend
overrides.  The bodies of `Open`, `Close`, `HasKey`, `Read`, `Write` and
`Delete` live in `config_impl.cpp`; they are modelled here from the written
specification and marked as such.  The state they act on is the state the
header declares: the two data members and the state of the derived object.
-/

namespace config

/-! ## Value types -/

/-- One `char` of a C++ string. -/
abbrev Byte := Fin 256

/-- Content of a `std::string`: its `size()` bytes; a NUL byte may occur anywhere. -/
abbrev StdString := List Byte

/-- Content of a `std::string_view`: the `size()` bytes starting at `data()`. -/
abbrev StringView := List Byte

/-- The C++ type `uint32_t`. -/
abbrev uint32_t := Fin (2 ^ 32)

/-- The C++ type `uint64_t`. -/
abbrev uint64_t := Fin (2 ^ 64)

/-- The C++ type `int32_t`. -/
abbrev int32_t := { z : Int // -(2 ^ 31) ≤ z ∧ z < 2 ^ 31 }

/-- The C++ type `int64_t`. -/
abbrev int64_t := { z : Int // -(2 ^ 63) ≤ z ∧ z < 2 ^ 63 }

/-- A `const char*` argument: `none` is the null pointer, `some mem` points at
the first byte of `mem`, the rest of the array the pointer points into. -/
abbrev CharPtr := Option (List Byte)

/-- The `std::char_traits<char>::length` scan used by `std::string_view(const char*)`:
the number of bytes before the first NUL.  `none` when the array holds no NUL,
where the scan would leave the array. -/
def strlen : List Byte → Option Nat
  | [] => none
  | c :: cs => if c = 0 then some 0 else (strlen cs).map (· + 1)

/-- The conversion `std::string_view(value)` for `const std::string& value`: all
`size()` bytes of the string. -/
def StringView.ofString (value : StdString) : StringView := value

/-- The conversion `std::string_view(value)` for `const char* value`: the bytes
before the terminating NUL.  `none` for a null pointer or an unterminated array. -/
def StringView.ofCharPtr : CharPtr → Option StringView
  | none => none
  | some mem => (strlen mem).map (fun n => mem.take n)

/-- The pointer `s.c_str()`: the bytes of `s` followed by a terminating NUL. -/
def StdString.c_str (s : StdString) : CharPtr := some (s ++ [0])

/-! ## Class `ConfigImpl` (config_impl.hpp) -/

/-- The data members of `ConfigImpl` (lines 198-202): `bool dontread_;` without an
initialiser and `bool enforce_read_ = false;`. -/
structure ConfigImpl where
  dontread_ : Bool
  enforce_read_ : Bool := false
  deriving DecidableEq, Repr

/-- Line 28: `void SetEnforceRead() { enforce_read_ = true; }`. -/
def ConfigImpl.SetEnforceRead (c : ConfigImpl) : ConfigImpl :=
  { c with enforce_read_ := true }

/-- Line 33: `bool GetEnforceRead() const { return enforce_read_; }`. -/
def ConfigImpl.GetEnforceRead (c : ConfigImpl) : Bool :=
  c.enforce_read_

/-- The pure virtual members of `ConfigImpl` (lines 74-143 and 161-196) as one
derived class overrides them.  `σ` is the state of the derived object; every
member is non-const, so each returns the state it leaves.  A `ReadImpl`
receives the content of the slot `value` points at and returns what the slot
holds afterwards. -/
structure Backend (σ : Type) where
  OpenImpl : Bool → σ → Bool × σ
  CloseImpl : σ → Bool × σ
  HasKeyStringImpl : StdString → σ → Bool × σ
  HasKeyBoolImpl : StdString → σ → Bool × σ
  HasKeyUint32Impl : StdString → σ → Bool × σ
  HasKeyUint64Impl : StdString → σ → Bool × σ
  HasKeyInt32Impl : StdString → σ → Bool × σ
  HasKeyInt64Impl : StdString → σ → Bool × σ
  ReadImpl_string : StdString → StdString → σ → Bool × StdString × σ
  ReadImpl_bool : StdString → Bool → σ → Bool × Bool × σ
  ReadImpl_uint32 : StdString → uint32_t → σ → Bool × uint32_t × σ
  ReadImpl_int32 : StdString → int32_t → σ → Bool × int32_t × σ
  ReadImpl_uint64 : StdString → uint64_t → σ → Bool × uint64_t × σ
  ReadImpl_int64 : StdString → int64_t → σ → Bool × int64_t × σ
  WriteImpl_string_view : StdString → StringView → σ → Bool × σ
  WriteImpl_bool : StdString → Bool → σ → Bool × σ
  WriteImpl_uint32 : StdString → uint32_t → σ → Bool × σ
  WriteImpl_int32 : StdString → int32_t → σ → Bool × σ
  WriteImpl_uint64 : StdString → uint64_t → σ → Bool × σ
  WriteImpl_int64 : StdString → int64_t → σ → Bool × σ
  DeleteImpl : StdString → σ → Bool × σ

/-- Line 149: `bool WriteImpl(const std::string& key, const std::string& value)
{ return WriteImpl(key, std::string_view(value)); }`. -/
def Backend.WriteImpl_string {σ : Type} (B : Backend σ) (key : StdString) (value : StdString)
    (s : σ) : Bool × σ :=
  B.WriteImpl_string_view key (StringView.ofString value) s

/-- Line 155: `bool WriteImpl(const std::string& key, const char* value)
{ return WriteImpl(key, std::string_view(value)); }`.  `none` when building the
view is undefined (null or unterminated `value`). -/
def Backend.WriteImpl_cstr {σ : Type} (B : Backend σ) (key : StdString) (value : CharPtr)
    (s : σ) : Option (Bool × σ) :=
  (StringView.ofCharPtr value).map (fun view => B.WriteImpl_string_view key view s)

/-! ## The typed operations (modelled from the specification) -/

/-- Modelled from the spec: the closed set of value types of section 3, one of
{string, bool, uint32, int32, uint64, int64}; the template parameter `T` of
`HasKey<T>`, `Read<T>` and `Write<T>`, whose specialisations are in
config_impl.cpp. -/
inductive Ty where
  | string
  | bool
  | uint32
  | int32
  | uint64
  | int64
  deriving DecidableEq, Repr

/-- The C++ value type a tag stands for. -/
@[reducible] def Ty.val : Ty → Type
  | .string => StdString
  | .bool => Bool
  | .uint32 => uint32_t
  | .int32 => int32_t
  | .uint64 => uint64_t
  | .int64 => int64_t

/-- Modelled from the spec: `HasKey<T>` "dispatches to the type-matching
`Backend.HasKey_T`" (section 4.2); the specialisations are in config_impl.cpp. -/
def Backend.HasKey_T {σ : Type} (B : Backend σ) : (t : Ty) → StdString → σ → Bool × σ
  | .string => B.HasKeyStringImpl
  | .bool => B.HasKeyBoolImpl
  | .uint32 => B.HasKeyUint32Impl
  | .int32 => B.HasKeyInt32Impl
  | .uint64 => B.HasKeyUint64Impl
  | .int64 => B.HasKeyInt64Impl

/-- Modelled from the spec: the type-matching `Backend.Read_T(key, out)` of
section 4.2, chosen among the `ReadImpl` overloads by the type of the slot. -/
def Backend.Read_T {σ : Type} (B : Backend σ) :
    (t : Ty) → StdString → t.val → σ → Bool × t.val × σ
  | .string => B.ReadImpl_string
  | .bool => B.ReadImpl_bool
  | .uint32 => B.ReadImpl_uint32
  | .int32 => B.ReadImpl_int32
  | .uint64 => B.ReadImpl_uint64
  | .int64 => B.ReadImpl_int64

/-- Modelled from the spec: the type-matching `Backend.Write_T(key, value)` of
section 4.2, chosen among the `WriteImpl` overloads by the type of the value; a
`std::string` value selects the owned-string overload of line 149. -/
def Backend.Write_T {σ : Type} (B : Backend σ) : (t : Ty) → StdString → t.val → σ → Bool × σ
  | .string => B.WriteImpl_string
  | .bool => B.WriteImpl_bool
  | .uint32 => B.WriteImpl_uint32
  | .int32 => B.WriteImpl_int32
  | .uint64 => B.WriteImpl_uint64
  | .int64 => B.WriteImpl_int64

/-- The whole accessor object: the data members of `ConfigImpl` (lines 198-202)
and the state `backend` of the derived class that overrides its pure virtual
members. -/
structure ConfigAccessor (σ : Type) extends ConfigImpl where
  backend : σ

/-- A newly constructed accessor over a backend in state `s`: `enforce_read_` is
false by its default member initialiser, and `dontread_`, which has no
initialiser, holds some value `d`. -/
def ConfigAccessor.fresh {σ : Type} (d : Bool) (s : σ) : ConfigAccessor σ :=
  { dontread_ := d, backend := s }

/-- The call `SetEnforceRead()` (line 28) on an accessor. -/
def ConfigAccessor.SetEnforceRead {σ : Type} (a : ConfigAccessor σ) : ConfigAccessor σ :=
  { a with toConfigImpl := a.toConfigImpl.SetEnforceRead }

/-- The call `GetEnforceRead()` (line 33) on an accessor. -/
def ConfigAccessor.GetEnforceRead {σ : Type} (a : ConfigAccessor σ) : Bool :=
  a.toConfigImpl.GetEnforceRead

/-- How a call of `HasKey`, `Read`, `Write` or `Delete` ends: it returns a value
and leaves the accessor in a next state, or the process terminates (enforced
read of a missing key). -/
inductive Outcome (σ α : Type) where
  | returned (value : α) (next : ConfigAccessor σ)
  | fatal

/-- The value a call returned, if it returned. -/
def Outcome.value? {σ α : Type} : Outcome σ α → Option α
  | .returned v _ => some v
  | .fatal => none

/-- The accessor a call left behind, if it returned. -/
def Outcome.next? {σ α : Type} : Outcome σ α → Option (ConfigAccessor σ)
  | .returned _ a => some a
  | .fatal => none

/-- What a diagnostic layer is permitted to print about a value (sections 3 and
6): the value itself, or a redaction placeholder. -/
inductive Shown (α : Type) where
  | clear (v : α)
  | redacted

/-- The presentation hint `is_masked` applied to a value. -/
def present {α : Type} (is_masked : Bool) (v : α) : Shown α :=
  if is_masked then .redacted else .clear v

/-- Modelled from the spec: `Open(dontRead)` of section 4.2, "delegates to
`Backend.Open(dontRead)`; stores `dontRead`".  The body is in config_impl.cpp.
The spec's "marks session open only on backend success" has no member of the
class to act on (lines 198-202 declare `dontread_` and `enforce_read_` only),
so the call leaves its result in the returned boolean alone. -/
def ConfigAccessor.Open {σ : Type} (B : Backend σ) (dontread : Bool) (a : ConfigAccessor σ) :
    Bool × ConfigAccessor σ :=
  let r := B.OpenImpl dontread a.backend
  (r.1, { dontread_ := dontread, enforce_read_ := a.enforce_read_, backend := r.2 })

/-- Modelled from the spec: `Close()` of section 4.2, "delegates to
`Backend.Close()`".  The body is in config_impl.cpp.  The spec's "marks session
closed" has no member of the class to act on. -/
def ConfigAccessor.Close {σ : Type} (B : Backend σ) (a : ConfigAccessor σ) :
    Bool × ConfigAccessor σ :=
  let r := B.CloseImpl a.backend
  (r.1, { a with backend := r.2 })

/-- Modelled from the spec: `HasKey<T>(key)` of section 4.2, "dispatches to the
type-matching `Backend.HasKey_T`".  The body is in config_impl.cpp.  The class
has no member that records a session, so "requires open session" is an
obligation on the caller and the call is described in every state. -/
def ConfigAccessor.HasKey {σ : Type} (B : Backend σ) (t : Ty) (key : StdString)
    (a : ConfigAccessor σ) : Outcome σ Bool :=
  let r := B.HasKey_T t key a.backend
  .returned r.1 { a with backend := r.2 }

/-- Modelled from the spec: `Read<T>(key, *out, isMasked)` of section 4.2.  Step 2
delegates to `Backend.Read_T`; step 3 makes a miss fatal when `enforceRead` is
set, and otherwise returns false with `*out` left at the caller's value; step 4
lets `isMasked` influence only what may be printed.  Step 1, "requires open
session", is an obligation on the caller: the class has no member that records
a session.  The caller's slot is an `absl::Flag<T>*` (line 55) while the backend
fills a `T*`, so the backend's value reaches the caller only on a hit.  The
second component is what a diagnostic layer may print about the value read.
The body is in config_impl.cpp. -/
def ConfigAccessor.Read {σ : Type} (B : Backend σ) (t : Ty) (key : StdString) (out : t.val)
    (is_masked : Bool) (a : ConfigAccessor σ) : Outcome σ (Bool × t.val) × Option (Shown t.val) :=
  let r := B.Read_T t key out a.backend
  if r.1 then
    (.returned (true, r.2.1) { a with backend := r.2.2 }, some (present is_masked r.2.1))
  else if a.enforce_read_ then (.fatal, none)
  else (.returned (false, out) { a with backend := r.2.2 }, none)

/-- Modelled from the spec: `Write<T>(key, value, isMasked)` of section 4.2,
"delegates to `Backend.Write_T`. `isMasked` is a pass-through presentation hint
only".  The second component is what a diagnostic layer may print about the
value written.  The body is in config_impl.cpp; "requires open session" is an
obligation on the caller, as for `Read`. -/
def ConfigAccessor.Write {σ : Type} (B : Backend σ) (t : Ty) (key : StdString) (value : t.val)
    (is_masked : Bool) (a : ConfigAccessor σ) : Outcome σ Bool × Option (Shown t.val) :=
  let r := B.Write_T t key value a.backend
  (.returned r.1 { a with backend := r.2 }, some (present is_masked value))

/-- Modelled from the spec: `Delete(key)` of section 4.2, "delegates to
`Backend.Delete`".  The body is in config_impl.cpp; "requires open session" is
an obligation on the caller, as for `Read`. -/
def ConfigAccessor.Delete {σ : Type} (B : Backend σ) (key : StdString)
    (a : ConfigAccessor σ) : Outcome σ Bool :=
  let r := B.DeleteImpl key a.backend
  .returned r.1 { a with backend := r.2 }

/-! ## Call traces -/

/-- A call of `Open` or `Close`. -/
inductive LifecycleCall where
  | Open (dontread : Bool)
  | Close
  deriving DecidableEq, Repr

/-- The accessor after one `Open` or `Close` call. -/
def LifecycleCall.run {σ : Type} (B : Backend σ) : LifecycleCall → ConfigAccessor σ →
    ConfigAccessor σ
  | .Open d, a => (a.Open B d).2
  | .Close, a => (a.Close B).2

/-- The accessor after a sequence of `Open` and `Close` calls, made in order. -/
def runLifecycle {σ : Type} (B : Backend σ) : List LifecycleCall → ConfigAccessor σ →
    ConfigAccessor σ
  | [], a => a
  | c :: cs, a => runLifecycle B cs (c.run B a)

/-- A call of one of the public state-changing operations declared in the class
(lines 28-68). -/
inductive Call where
  | SetEnforceRead
  | Open (dontread : Bool)
  | Close
  | HasKey (t : Ty) (key : StdString)
  | Read (t : Ty) (key : StdString) (out : t.val) (is_masked : Bool)
  | Write (t : Ty) (key : StdString) (value : t.val) (is_masked : Bool)
  | Delete (key : StdString)

/-- The accessor after one call; `none` when the call did not return (the process
terminated). -/
def Call.run {σ : Type} (B : Backend σ) : Call → ConfigAccessor σ → Option (ConfigAccessor σ)
  | .SetEnforceRead, a => some a.SetEnforceRead
  | .Open d, a => some (a.Open B d).2
  | .Close, a => some (a.Close B).2
  | .HasKey t k, a => (a.HasKey B t k).next?
  | .Read t k out m, a => (a.Read B t k out m).1.next?
  | .Write t k v m, a => (a.Write B t k v m).1.next?
  | .Delete k, a => (a.Delete B k).next?

/-- The accessor after a sequence of calls made in order; `none` as soon as one of
them does not return. -/
def runCalls {σ : Type} (B : Backend σ) : List Call → ConfigAccessor σ →
    Option (ConfigAccessor σ)
  | [], a => some a
  | c :: cs, a => (c.run B a).bind (runCalls B cs)

/-- Specification-side definition for the C-string overload: the bytes of a C
string up to, but excluding, its first NUL byte. -/
def untilNul (mem : List Byte) : StringView :=
  mem.takeWhile (fun c => c ≠ 0)

/-! ## A reference backend (modelled from the specification) -/

/-- Modelled from the spec: a stored value of section 3, "one of {string, bool,
uint32, int32, uint64, int64}", tagged with its declared type. -/
inductive Value where
  | string (v : StdString)
  | bool (v : Bool)
  | uint32 (v : uint32_t)
  | int32 (v : int32_t)
  | uint64 (v : uint64_t)
  | int64 (v : int64_t)
  deriving DecidableEq

/-- A value of type `T` as a stored value. -/
def Value.of : (t : Ty) → t.val → Value
  | .string, v => .string v
  | .bool, v => .bool v
  | .uint32, v => .uint32 v
  | .int32, v => .int32 v
  | .uint64, v => .uint64 v
  | .int64, v => .int64 v

/-- A stored value decoded as type `T`; `none` on a type mismatch. -/
def Value.as : (t : Ty) → Value → Option t.val
  | .string, .string v => some v
  | .bool, .bool v => some v
  | .uint32, .uint32 v => some v
  | .int32, .int32 v => some v
  | .uint64, .uint64 v => some v
  | .int64, .int64 v => some v
  | _, _ => none

/-- Modelled from the spec: the state of a reference backend, a flat string-keyed
store on one medium whose I/O either works or fails for the whole life of the
store (sections 4.1 and 6). -/
structure Medium where
  io_ok : Bool
  entries : StdString → Option Value

/-- Reference `HasKey_T`: "true iff key exists and is representable as type T". -/
def Medium.has (t : Ty) (key : StdString) (s : Medium) : Bool × Medium :=
  (((s.entries key).bind (Value.as t)).isSome, s)

/-- Reference `Read_T`: "on hit, writes the decoded value into `*out` and returns
true; on miss or type mismatch, returns false". -/
def Medium.read (t : Ty) (key : StdString) (out : t.val) (s : Medium) : Bool × t.val × Medium :=
  match (s.entries key).bind (Value.as t) with
  | some v => (true, v, s)
  | none => (false, out, s)

/-- Reference `Write_T`: "upserts; overwrites any prior value/type at key.
Returns false on I/O failure". -/
def Medium.write (t : Ty) (key : StdString) (v : t.val) (s : Medium) : Bool × Medium :=
  if s.io_ok then
    (true, { s with entries := fun k => if k = key then some (Value.of t v) else s.entries k })
  else (false, s)

/-- Reference `Delete`: "removes key if present; returns true whether or not it
was present, false only on I/O failure". -/
def Medium.delete (key : StdString) (s : Medium) : Bool × Medium :=
  if s.io_ok then (true, { s with entries := fun k => if k = key then none else s.entries k })
  else (false, s)

/-- Modelled from the spec: a reference backend over `Medium`, following the
operation list of section 4.1.  `Open` and `Close` return false on I/O failure;
`Open` with `dontRead` skips loading the existing content. -/
def Medium.backend : Backend Medium where
  OpenImpl := fun dontread s =>
    if s.io_ok then (true, if dontread then { s with entries := fun _ => none } else s)
    else (false, s)
  CloseImpl := fun s => (s.io_ok, s)
  HasKeyStringImpl := Medium.has .string
  HasKeyBoolImpl := Medium.has .bool
  HasKeyUint32Impl := Medium.has .uint32
  HasKeyUint64Impl := Medium.has .uint64
  HasKeyInt32Impl := Medium.has .int32
  HasKeyInt64Impl := Medium.has .int64
  ReadImpl_string := Medium.read .string
  ReadImpl_bool := Medium.read .bool
  ReadImpl_uint32 := Medium.read .uint32
  ReadImpl_int32 := Medium.read .int32
  ReadImpl_uint64 := Medium.read .uint64
  ReadImpl_int64 := Medium.read .int64
  WriteImpl_string_view := Medium.write .string
  WriteImpl_bool := Medium.write .bool
  WriteImpl_uint32 := Medium.write .uint32
  WriteImpl_int32 := Medium.write .int32
  WriteImpl_uint64 := Medium.write .uint64
  WriteImpl_int64 := Medium.write .int64
  DeleteImpl := Medium.delete

/-- An accessor over the reference backend with the given medium. -/
def Medium.session (enforce : Bool) (s : Medium) : ConfigAccessor Medium :=
  { dontread_ := false, enforce_read_ := enforce, backend := s }

/-- An empty medium whose I/O works. -/
def Medium.empty : Medium := { io_ok := true, entries := fun _ => none }

/-- C1: when the backend's `Read_T(key)` reports a miss, an accessor with
`enforceRead` unset returns false from `Read<T>` and hands the caller's value
back as it was, whatever the backend left in its own slot; an accessor with
`enforceRead` set, in particular one on which `SetEnforceRead` was called, does
not return at all: the miss is fatal. -/
theorem Read_miss_false_or_fatal {σ : Type} (B : Backend σ) (t : Ty) (key : StdString)
    (out : t.val) (is_masked : Bool) (a : ConfigAccessor σ)
    (hmiss : (B.Read_T t key out a.backend).1 = false) :
    (a.GetEnforceRead = false →
      (a.Read B t key out is_masked).1 =
        .returned (false, out) { a with backend := (B.Read_T t key out a.backend).2.2 }) ∧
    (a.GetEnforceRead = true →
      (a.Read B t key out is_masked).1 = .fatal ∧
      (a.Read B t key out is_masked).1.value? = none) ∧
    (a.SetEnforceRead.Read B t key out is_masked).1 = .fatal := by
  refine ⟨?_, ?_, ?_⟩
  · intro he
    have he' : a.enforce_read_ = false := he
    simp [ConfigAccessor.Read, hmiss, he']
  · intro he
    have he' : a.enforce_read_ = true := he
    simp [ConfigAccessor.Read, hmiss, he', Outcome.value?]
  · have h2 : (B.Read_T t key out a.SetEnforceRead.backend).1 = false := hmiss
    have h3 : a.SetEnforceRead.enforce_read_ = true := rfl
    simp [ConfigAccessor.Read, h2, h3]

/-- Witness for C1: a session on the empty reference store, reading the boolean
key "flag" into a slot holding `true`. -/
theorem Read_miss_false_or_fatal_witness :
    (Medium.backend.Read_T .bool [102, 108, 97, 103] true
      (Medium.session false Medium.empty).backend).1 = false ∧
    ((Medium.session false Medium.empty).Read Medium.backend .bool [102, 108, 97, 103]
      true false).1.value? = some (false, true) ∧
    ((Medium.session false Medium.empty).SetEnforceRead.Read Medium.backend .bool
      [102, 108, 97, 103] true false).1 = .fatal := by
  have h := Read_miss_false_or_fatal Medium.backend .bool [102, 108, 97, 103] true false
    (Medium.session false Medium.empty) rfl
  refine ⟨rfl, ?_, h.2.2⟩
  rw [h.1 rfl]
  rfl

theorem runLifecycle_enforce_read {σ : Type} (B : Backend σ) (calls : List LifecycleCall) :
    ∀ a : ConfigAccessor σ, (runLifecycle B calls a).enforce_read_ = a.enforce_read_ := by
  induction calls with
  | nil => intro a; rfl
  | cons c cs ih =>
    intro a
    show (runLifecycle B cs (c.run B a)).enforce_read_ = a.enforce_read_
    rw [ih]
    cases c <;> rfl

/-- C2: a newly constructed accessor has enforced read off, and it stays off
through any sequence of `Open` and `Close` calls: with no `SetEnforceRead`
call, `GetEnforceRead()` returns false. -/
theorem fresh_GetEnforceRead_false {σ : Type} (B : Backend σ) (d : Bool) (s : σ)
    (calls : List LifecycleCall) :
    (ConfigAccessor.fresh d s).GetEnforceRead = false ∧
    (runLifecycle B calls (ConfigAccessor.fresh d s)).GetEnforceRead = false := by
  refine ⟨rfl, ?_⟩
  show (runLifecycle B calls (ConfigAccessor.fresh d s)).enforce_read_ = false
  rw [runLifecycle_enforce_read]
  rfl

/-- C7: masking is presentation-only: in every accessor and backend state, and
for every type, key and value, `Write<T>` with `isMasked` true and false have
the same outcome (the same boolean and the same next state, stored value
included), and so have `Read<T>` with `isMasked` true and false (the same
boolean, the same value and the same next state). -/
theorem masking_presentation_only {σ : Type} (B : Backend σ) (t : Ty) (key : StdString)
    (value out : t.val) (a : ConfigAccessor σ) :
    (a.Write B t key value true).1 = (a.Write B t key value false).1 ∧
    (a.Read B t key out true).1 = (a.Read B t key out false).1 := by
  constructor
  · rfl
  · simp only [ConfigAccessor.Read]
    cases (B.Read_T t key out a.backend).1 <;> cases a.enforce_read_ <;> rfl


/-! ## The enforced-read switch -/

theorem Call.run_enforce_read {σ : Type} (B : Backend σ) (c : Call) (a a' : ConfigAccessor σ)
    (he : a.enforce_read_ = true) (hrun : c.run B a = some a') : a'.enforce_read_ = true := by
  cases c with
  | SetEnforceRead =>
    simp only [Call.run, Option.some.injEq] at hrun
    rw [← hrun]; rfl
  | Open d =>
    simp only [Call.run, Option.some.injEq] at hrun
    rw [← hrun]; exact he
  | Close =>
    simp only [Call.run, Option.some.injEq] at hrun
    rw [← hrun]; exact he
  | HasKey t k =>
    simp only [Call.run, ConfigAccessor.HasKey, Outcome.next?, Option.some.injEq] at hrun
    rw [← hrun]; exact he
  | Read t k out m =>
    simp only [Call.run, ConfigAccessor.Read] at hrun
    split at hrun
    · simp only [Outcome.next?, Option.some.injEq] at hrun
      rw [← hrun]; exact he
    · simp [he, Outcome.next?] at hrun
  | Write t k v m =>
    simp only [Call.run, ConfigAccessor.Write, Outcome.next?, Option.some.injEq] at hrun
    rw [← hrun]; exact he
  | Delete k =>
    simp only [Call.run, ConfigAccessor.Delete, Outcome.next?, Option.some.injEq] at hrun
    rw [← hrun]; exact he

theorem runCalls_enforce_read {σ : Type} (B : Backend σ) (calls : List Call) :
    ∀ a a' : ConfigAccessor σ, a.enforce_read_ = true → runCalls B calls a = some a' →
      a'.enforce_read_ = true := by
  induction calls with
  | nil =>
    intro a a' he hrun
    simp only [runCalls, Option.some.injEq] at hrun
    rw [← hrun]; exact he
  | cons c cs ih =>
    intro a a' he hrun
    simp only [runCalls] at hrun
    cases hc : c.run B a with
    | none => simp [hc] at hrun
    | some a1 =>
      rw [hc] at hrun
      exact ih a1 a' (Call.run_enforce_read B c a a1 he hc) hrun

/-- C9: `SetEnforceRead` is a one-way, idempotent switch: in every accessor state
`GetEnforceRead` is true after it, applying it twice gives the same state as
applying it once, it leaves `dontread_` unchanged, and no sequence of calls of
the operations declared on the accessor brings `enforce_read_` back to
false. -/
theorem SetEnforceRead_one_way {σ : Type} (B : Backend σ) (a a' : ConfigAccessor σ)
    (calls : List Call) (hrun : runCalls B calls a.SetEnforceRead = some a') :
    a.toConfigImpl.SetEnforceRead.GetEnforceRead = true ∧
    a.toConfigImpl.SetEnforceRead.SetEnforceRead = a.toConfigImpl.SetEnforceRead ∧
    a.toConfigImpl.SetEnforceRead.dontread_ = a.dontread_ ∧
    a.SetEnforceRead.SetEnforceRead = a.SetEnforceRead ∧
    a'.GetEnforceRead = true :=
  ⟨rfl, rfl, rfl, rfl, runCalls_enforce_read B calls a.SetEnforceRead a' rfl hrun⟩

/-- Witness for C9: after `SetEnforceRead` on a new accessor, an `Open`, a write, a
hit read and a `Close` on the reference backend leave enforced read on. -/
theorem SetEnforceRead_one_way_witness :
    ((runCalls Medium.backend
        [.Open false, .Write .bool [102] true false, .Read .bool [102] false true, .Close]
        (ConfigAccessor.fresh false Medium.empty).SetEnforceRead).map
      (fun a => a.GetEnforceRead)) = some true := by
  have hrun : runCalls Medium.backend
      [.Open false, .Write .bool [102] true false, .Read .bool [102] false true, .Close]
      (ConfigAccessor.fresh false Medium.empty).SetEnforceRead
      = some { dontread_ := false, enforce_read_ := true,
               backend := (Medium.write .bool [102] true Medium.empty).2 } := rfl
  have h := SetEnforceRead_one_way Medium.backend (ConfigAccessor.fresh false Medium.empty) _ _ hrun
  rw [hrun]
  exact congrArg some h.2.2.2.2

/-! ## String writes -/

/-- C3: string writes have a single form: for every backend, key and owned string
`s`, the owned-string overload `WriteImpl(k, s)` returns the same result and
leaves the same backend state as the string-view overload called with a view
of exactly the bytes of `s`, embedded NUL bytes included. -/
theorem WriteImpl_string_is_string_view {σ : Type} (B : Backend σ) (key : StdString)
    (s : StdString) (st : σ) :
    B.WriteImpl_string key s st = B.WriteImpl_string_view key (StringView.ofString s) st ∧
    StringView.ofString s = s :=
  ⟨rfl, rfl⟩

theorem ofCharPtr_of_mem (mem : List Byte) (hnul : (0 : Byte) ∈ mem) :
    StringView.ofCharPtr (some mem) = some (untilNul mem) := by
  induction mem with
  | nil => simp at hnul
  | cons c cs ih =>
    by_cases hc : c = 0
    · simp [StringView.ofCharPtr, strlen, untilNul, hc]
    · have hcs : (0 : Byte) ∈ cs := by
        rcases List.mem_cons.mp hnul with h | h
        · exact absurd h.symm hc
        · exact h
      have ih' := ih hcs
      simp only [StringView.ofCharPtr, Option.map_eq_some'] at ih'
      obtain ⟨n, hn, htake⟩ := ih'
      simp only [StringView.ofCharPtr, strlen, hc, if_false, hn, Option.map_some', List.take_succ_cons,
        untilNul]
      simp only [untilNul] at htake
      rw [List.takeWhile_cons_of_pos (by simpa using hc), htake]

theorem untilNul_no_nul (mem : List Byte) : (0 : Byte) ∉ untilNul mem := by
  intro h
  have := List.mem_takeWhile_imp h
  simp at this

theorem untilNul_c_str (s : StdString) (h : (0 : Byte) ∉ s) : untilNul (s ++ [0]) = s := by
  induction s with
  | nil => simp [untilNul]
  | cons c cs ih =>
    have hc : c ≠ 0 := fun e => h (by simp [e])
    have hcs : (0 : Byte) ∉ cs := fun e => h (List.mem_cons_of_mem _ e)
    have := ih hcs
    simp only [untilNul] at this ⊢
    rw [List.cons_append, List.takeWhile_cons_of_pos (by simpa using hc), this]

/-- C10: for every backend, key and non-null NUL-terminated C string `c`, the
C-string overload `WriteImpl(k, c)` is defined and equals, in result and
effect, the string-view overload called with the bytes of `c` before its first
NUL; so on `s.c_str()` it agrees with the owned-string overload `WriteImpl(k, s)`
over every backend exactly when `s` holds no embedded NUL byte. -/
theorem WriteImpl_cstr_until_nul (mem : List Byte) (s : StdString)
    (hnul : (0 : Byte) ∈ mem) :
    (∀ (σ : Type) (B : Backend σ) (key : StdString) (st : σ),
      B.WriteImpl_cstr key (some mem) st = some (B.WriteImpl_string_view key (untilNul mem) st)) ∧
    ((∀ (σ : Type) (B : Backend σ) (key : StdString) (st : σ),
      B.WriteImpl_cstr key s.c_str st = some (B.WriteImpl_string key s st)) ↔
      (0 : Byte) ∉ s) := by
  constructor
  · intro σ B key st
    simp [Backend.WriteImpl_cstr, ofCharPtr_of_mem mem hnul]
  · constructor
    · intro hall
      have h := hall Medium Medium.backend [] Medium.empty
      have hterm : (0 : Byte) ∈ s ++ [0] := by simp
      simp only [Backend.WriteImpl_cstr, StdString.c_str, ofCharPtr_of_mem _ hterm, Option.map_some',
        Option.some.injEq, Backend.WriteImpl_string, StringView.ofString] at h
      have h2 := congrArg (fun r => r.2.entries []) h
      simp [Medium.backend, Medium.write, Medium.empty, Value.of] at h2
      rw [← h2]
      exact untilNul_no_nul _
    · intro hs σ B key st
      have hterm : (0 : Byte) ∈ s ++ [0] := by simp
      simp [Backend.WriteImpl_cstr, StdString.c_str, ofCharPtr_of_mem _ hterm, untilNul_c_str s hs,
        Backend.WriteImpl_string, StringView.ofString]

/-- Witness for C10: the array "ab\0c\0" is written as "ab", and the string
"ab" written through `c_str()` agrees with the owned-string overload. -/
theorem WriteImpl_cstr_until_nul_witness :
    (0 : Byte) ∈ ([97, 98, 0, 99, 0] : List Byte) ∧
    Medium.backend.WriteImpl_cstr [107] (some [97, 98, 0, 99, 0]) Medium.empty
      = some (Medium.backend.WriteImpl_string_view [107] [97, 98] Medium.empty) ∧
    (0 : Byte) ∉ ([97, 98] : StdString) := by
  have h := WriteImpl_cstr_until_nul [97, 98, 0, 99, 0] [97, 98] (by decide)
  exact ⟨by decide, h.1 Medium Medium.backend [107] Medium.empty, by decide⟩

/-! ## The session life cycle -/

end config
